import Mathlib

/-!
# Verification of the smart-study-buddy core (`src/app.py`)

A shallow embedding of the answer resolver (`get_answer`), the quiz
generator (`generate_ai_mcqs`), the quiz scorer (the POST branch of
`ai_quiz`), and the startup cache load, together with theorems settling
the specification claims.

External collaborators are modelled as oracle parameters:
* the Gemini remote call (`client.models.generate_content` followed by
  `.text.strip()` inside the `try` block) becomes an `Option String`
  argument — `none` means the call (or the attribute access on its
  result) raised an exception, `some raw` means it returned the text
  `raw`;
* `json.loads` / `json.load` become function / `Option` arguments,
  since the JSON parser is an external library treated as a black box;
* the file write `json.dump(ai_cache, f)` is assumed to succeed; the
  persisted table is identified with the in-memory table it mirrors.

Python `dict`s are embedded as association lists with first-match
lookup; insertion replaces in place or appends, like a `dict` item
assignment.
-/

/-- Python `d.get(key)` on a string-keyed dict embedded as an
association list: the value at the first matching key, else `none`. -/
def pyGet {α : Type} : List (String × α) → String → Option α
  | [], _ => none
  | (k, v) :: rest, key => if key = k then some v else pyGet rest key

/-- Python `d[key] = value` on a string-keyed dict: replace the value at
an existing key in place, otherwise append the new pair. -/
def pySet {α : Type} : List (String × α) → String → α → List (String × α)
  | [], key, value => [(key, value)]
  | (k, v) :: rest, key, value =>
      if key = k then (key, value) :: rest else (k, v) :: pySet rest key value

/-- Python `s.strip()`: remove leading and trailing whitespace. Embedded
over the character list (the built-in `String.trim` is not
kernel-reducible). -/
def pyStrip (s : String) : String :=
  String.mk (((s.toList.dropWhile Char.isWhitespace).reverse.dropWhile
    Char.isWhitespace).reverse)

/-- `subjects` from `app.py` line 24. -/
def subjects : List String := ["Math", "Science", "English", "Electronics"]

/-- The static Content Store `questions` from `app.py` lines 26–45:
subject → question → canonical answer. -/
def questions : List (String × List (String × String)) :=
  [("Math",
     [("What is 2+2?", "2+2 = 4"),
      ("What is 10-3?", "10-3 = 7"),
      ("What is correlation?",
       "Correlation measures the relationship between two variables.")]),
   ("Science",
     [("What is H2O?", "H2O is water"),
      ("Which planet is nearest to the sun?", "Mercury"),
      ("What is Ohm\x27s law?",
       "Ohm\x27s law states that V = IR, where V is voltage, I is current, and R is resistance.")]),
   ("English",
     [("Synonym of happy?", "Joyful"),
      ("Antonym of fast?", "Slow")]),
   ("Electronics",
     [("What does LED stand for?", "Light Emitting Diode"),
      ("What is the unit of electric current?", "Ampere")])]

/-- The fixed message returned when the remote call raises
(`app.py` line 89). -/
def failMsgError : String := "Sorry, the answer could not be generated."

/-- The fixed message returned when the remote call succeeds with empty
stripped text (`app.py` line 85). -/
def failMsgEmpty : String := "Sorry, AI could not generate an answer."

/-- Result of one `get_answer` call: the returned string, the `ai_cache`
table after the call (in-memory and persisted are identified), and
whether the remote model was invoked. -/
structure ResolveResult where
  answer : String
  cache : List (String × String)
  remoteCalled : Bool
deriving DecidableEq, Repr

/-- Steps 2–3 of `get_answer` (`app.py` lines 66–89): the cache check
and the remote call, reached when the Content Store lookup produced no
truthy answer. On remote success the stripped text is written into the
cache unconditionally (line 81) and returned, or replaced by
`failMsgEmpty` when empty (line 85); on any exception `failMsgError` is
returned (line 89). -/
def resolveTail (question : String) (ai_cache : List (String × String))
    (remote : Option String) : ResolveResult :=
  match pyGet ai_cache question with
  | some v => ⟨v, ai_cache, false⟩
  | none =>
    match remote with
    | none => ⟨failMsgError, ai_cache, true⟩
    | some raw =>
      let ans := pyStrip raw
      ⟨if ans = "" then failMsgEmpty else ans, pySet ai_cache question ans, true⟩

/-- `get_answer(sub, question)` from `app.py` lines 60–89. Step 1 is the
Content Store lookup `questions.get(sub, {}).get(question)` guarded by
Python truthiness (`if ans:`): an empty-string answer falls through like
a miss. -/
def get_answer (sub question : String) (ai_cache : List (String × String))
    (remote : Option String) : ResolveResult :=
  match pyGet ((pyGet questions sub).getD []) question with
  | some a =>
      if a = "" then resolveTail question ai_cache remote
      else ⟨a, ai_cache, false⟩
  | none => resolveTail question ai_cache remote

/-! ## The quiz generator (`generate_ai_mcqs`, `app.py` lines 93–163)

JSON values produced by `json.loads` are embedded as `PyVal`; Python
`==` between two such values is structural equality `pyEq` (the claims
only ever compare strings, where the two coincide exactly). -/

/-- A Python value as produced by `json.loads`. -/
inductive PyVal where
  | str : String → PyVal
  | int : Int → PyVal
  | bool : Bool → PyVal
  | null : PyVal
  | list : List PyVal → PyVal
  | dict : List (String × PyVal) → PyVal

mutual

/-- Python `==` on JSON values, as structural equality. -/
def pyEq : PyVal → PyVal → Bool
  | .str a, .str b => a == b
  | .int a, .int b => a == b
  | .bool a, .bool b => a == b
  | .null, .null => true
  | .list a, .list b => pyEqList a b
  | .dict a, .dict b => pyEqKVs a b
  | _, _ => false

/-- Elementwise `pyEq` on lists. -/
def pyEqList : List PyVal → List PyVal → Bool
  | [], [] => true
  | a :: as, b :: bs => pyEq a b && pyEqList as bs
  | _, _ => false

/-- Pairwise `pyEq` on dict entries. -/
def pyEqKVs : List (String × PyVal) → List (String × PyVal) → Bool
  | [], [] => true
  | (k1, v1) :: as, (k2, v2) :: bs => k1 == k2 && pyEq v1 v2 && pyEqKVs as bs
  | _, _ => false

end

/-- Python `x in l` on a list: some element compares `==` to `x`. -/
def pyContains (l : List PyVal) (x : PyVal) : Bool :=
  l.any (fun e => pyEq e x)

/-- Python `d.get(k)` on a JSON value: a dict lookup, `none` otherwise. -/
def PyVal.getKey : PyVal → String → Option PyVal
  | .dict kvs, k => pyGet kvs k
  | _, _ => none

/-- The element validation of `app.py` lines 136–144: the value is a
dict with keys `question`, `options` and `answer`, `options` is a list
of exactly 4 entries, and `answer` compares equal to one of them.
`getKey` is `none` on non-dicts and missing keys, so the triple pattern
captures `isinstance(q, dict)`, the three `in` tests, and — through the
pattern `some (.list opts)` — `isinstance(q["options"], list)`. -/
def isValidMCQ (q : PyVal) : Bool :=
  match q.getKey "question", q.getKey "options", q.getKey "answer" with
  | some _, some (.list opts), some ans => opts.length == 4 && pyContains opts ans
  | _, _, _ => false

/-- The per-entry invariant the specification states for surfaced
quizzes: exactly 4 options and an answer equal to one of them. -/
def isWellFormedMCQ (q : PyVal) : Bool :=
  match q.getKey "options", q.getKey "answer" with
  | some (.list opts), some ans => opts.length == 4 && pyContains opts ans
  | _, _ => false

/-- The fallback quiz of `app.py` lines 156–163: `num_questions`
placeholder questions with four generic options and answer
`"Option A"`. -/
def fallback_mcqs (subject : String) (num_questions : Nat) : List PyVal :=
  (List.range num_questions).map (fun i =>
    PyVal.dict
      [("question",
        PyVal.str ("Sample " ++ subject ++ " question " ++ toString (i + 1) ++ "?")),
       ("options",
        PyVal.list [PyVal.str "Option A", PyVal.str "Option B",
                    PyVal.str "Option C", PyVal.str "Option D"]),
       ("answer", PyVal.str "Option A")])

/-- Index of the last occurrence of a character, Python `s.rfind(c)`
(as an `Option` instead of `-1`). -/
def lastIdxOf (l : List Char) (c : Char) : Option Nat :=
  match l.reverse.findIdx? (· == c) with
  | some i => some (l.length - 1 - i)
  | none => none

/-- Python slice `s[a:b]` for `0 ≤ a, b` (empty when `b ≤ a`). -/
def pySlice (s : String) (a b : Nat) : String :=
  String.mk ((s.toList.drop a).take (b - a))

/-- The JSON extraction of `app.py` lines 126–129: `text[start:end]`
with `start = text.find("[")` and `end = text.rfind("]") + 1`, raising
(`none`) when either bracket is absent. -/
def extractJsonSlice (text : String) : Option String :=
  match text.toList.findIdx? (· == '['), lastIdxOf text.toList ']' with
  | some s, some e => some (pySlice text s (e + 1))
  | _, _ => none

/-- The `try` body of `generate_ai_mcqs` up to `validated_mcqs`
(`app.py` lines 117–145): strip the remote text, extract the bracketed
slice, parse it, and keep the elements that pass validation. `none`
means an exception was raised before `validated_mcqs` existed — the
remote call failed (`remote = none`), no bracket pair was found (the
`ValueError` on line 129), or `json.loads` failed. -/
def parsedValidated (remote : Option String)
    (jsonLoads : String → Option (List PyVal)) : Option (List PyVal) :=
  match remote with
  | none => none
  | some raw =>
    match extractJsonSlice (pyStrip raw) with
    | none => none
    | some slice =>
      match jsonLoads slice with
      | none => none
      | some mcqs => some (mcqs.filter isValidMCQ)

/-- `generate_ai_mcqs(subject, num_questions)` from `app.py` lines
93–163. `remote` is the Gemini oracle (`none` = the call raised);
`jsonLoads` is the external `json.loads` (`none` = parse error; a
successful parse of a slice that a bracket pair delimits is an array).
Any exception in the `try` body — including the `ValueError` raised
when `validated_mcqs` is empty (line 148) — lands in the `except`
handler, which returns the fallback quiz. -/
def generate_ai_mcqs (subject : String) (num_questions : Nat)
    (remote : Option String) (jsonLoads : String → Option (List PyVal)) :
    List PyVal :=
  match parsedValidated remote jsonLoads with
  | none => fallback_mcqs subject num_questions
  | some validated =>
    if validated.isEmpty then fallback_mcqs subject num_questions
    else validated


/-- A one-element JSON array a remote success can return. -/
def demoRaw : String :=
  "[\x7b\"question\": \"Q1\", \"options\": [\"A\", \"B\", \"C\", \"D\"], \"answer\": \"A\"\x7d]"

/-- The parse of `demoRaw`: one valid multiple-choice question. -/
def demoMCQ : PyVal :=
  PyVal.dict
    [("question", PyVal.str "Q1"),
     ("options", PyVal.list [PyVal.str "A", PyVal.str "B", PyVal.str "C", PyVal.str "D"]),
     ("answer", PyVal.str "A")]

/-- `json.loads` restricted to the one input the counterexample needs:
on `demoRaw` it yields the one-element array, exactly as the real
parser does on that text. -/
def demoJsonLoads (s : String) : Option (List PyVal) :=
  if s = demoRaw then some [demoMCQ] else none

/-! ## The quiz scorer (POST branch of `ai_quiz`, `app.py` lines 221–234)

`submission i` models `request.form.get(f"q\x7bi\x7d")`: the option
string the user selected for question `i`, or `none` when absent. The
quiz blob elements are dicts (a non-dict element would make Python
`q.get` raise, outside every claim). -/

/-- `selected == q.get("answer")` on line 231: Python `==` between an
optional form string and an optional JSON value. `None == None` is
`True`; a string equals a string value with the same text; everything
else is unequal. -/
def pyEqSelAns (selected : Option String) (answer : Option PyVal) : Bool :=
  match selected, answer with
  | none, none => true
  | some s, some (.str t) => s == t
  | _, _ => false

/-- The scoring loop of `app.py` lines 228–232, running from index `i`:
one point per question whose selected option compares `==` to
`q.get("answer")`. -/
def scoreLoop (submission : Nat → Option String) : Nat → List PyVal → Nat
  | _, [] => 0
  | i, q :: rest =>
      (if pyEqSelAns (submission i) (q.getKey "answer") then 1 else 0) +
        scoreLoop submission (i + 1) rest

/-- The score the POST branch of `ai_quiz` renders: the loop total and
`len(mcqs)` (`app.py` line 234). -/
def ai_quiz_score (mcqs : List PyVal) (submission : Nat → Option String) :
    Nat × Nat :=
  (scoreLoop submission 0 mcqs, mcqs.length)

/-- Modelled from the specification of the Quiz Scorer: the number of
indices at which the submitted option string equals the stored answer
string under exact string equality, an absent submission never
matching. Compared against the code path `ai_quiz_score`. -/
def answerMatchCount (submission : Nat → Option String) : Nat → List PyVal → Nat
  | _, [] => 0
  | i, q :: rest =>
      (match submission i, q.getKey "answer" with
       | some s, some (.str t) => if s = t then 1 else 0
       | _, _ => 0) + answerMatchCount submission (i + 1) rest

/-! ## Startup (`app.py` lines 50–54) -/

/-- The module-level startup relevant to the cache: `subjects` (line
24) and `questions` (lines 26–45) are constructed first and cannot
fail; then, when `ai_cache.json` exists, `json.load` runs with no
surrounding `try` — `parsed = none` models malformed content, whose
exception aborts module initialization (`Except.error`). When the file
is absent the cache starts empty. -/
def startup (fileExists : Bool) (parsed : Option (List (String × String))) :
    Except Unit
      (List String × List (String × List (String × String)) × List (String × String)) :=
  if fileExists then
    match parsed with
    | some c => Except.ok (subjects, questions, c)
    | none => Except.error ()
  else Except.ok (subjects, questions, [])

/-! ## Basic dictionary lemmas -/

/-- A successful first-match lookup returns a pair of the list. -/
theorem mem_of_pyGet {α : Type} {l : List (String × α)} {key : String} {v : α}
    (h : pyGet l key = some v) : (key, v) ∈ l := by
  induction l with
  | nil => simp [pyGet] at h
  | cons p rest ih =>
    obtain ⟨k, w⟩ := p
    by_cases hk : key = k
    · simp [pyGet, hk] at h
      subst hk h
      exact List.mem_cons_self _ _
    · simp [pyGet, hk] at h
      exact List.mem_cons_of_mem _ (ih h)

/-- Looking up a key just written returns the written value. -/
theorem pyGet_pySet_self {α : Type} (l : List (String × α)) (key : String) (v : α) :
    pyGet (pySet l key v) key = some v := by
  induction l with
  | nil => simp [pySet, pyGet]
  | cons p rest ih =>
    obtain ⟨k, w⟩ := p
    by_cases hk : key = k
    · simp [pySet, hk, pyGet]
    · simp [pySet, hk, pyGet, ih]

/-- Every answer stored in the static Content Store is a nonempty
string (so the truthiness guard `if ans:` never drops a stored hit). -/
theorem questions_values_nonempty :
    ∀ p ∈ questions, ∀ q ∈ p.2, q.2 ≠ "" := by decide

/-! ## C7: Content Store hits -/

/-- C7: for every (subject, question) pair present in the Content
Store table for that subject, `get_answer` returns exactly the stored
answer, leaves the cache unchanged, does not invoke the remote call,
and (being independent of `ai_cache` and `remote`, which are universally
quantified) consults neither the cache nor the remote model. -/
theorem resolve_content_store_hit (sub question a : String)
    (ai_cache : List (String × String)) (remote : Option String)
    (h : pyGet ((pyGet questions sub).getD []) question = some a) :
    get_answer sub question ai_cache remote = ⟨a, ai_cache, false⟩ := by
  have hne : a ≠ "" := by
    cases htab : pyGet questions sub with
    | none => rw [htab] at h; simp [pyGet] at h
    | some table =>
      rw [htab] at h
      simp only [Option.getD_some] at h
      have htabmem := mem_of_pyGet htab
      have hqmem := mem_of_pyGet h
      exact questions_values_nonempty _ htabmem _ hqmem
  simp [get_answer, h, hne]

/-- Witness for C7 at a concrete stored pair. -/
theorem resolve_content_store_hit_witness :
    pyGet ((pyGet questions "Math").getD []) "What is 2+2?" = some "2+2 = 4" ∧
    get_answer "Math" "What is 2+2?" [] none = ⟨"2+2 = 4", [], false⟩ :=
  ⟨by decide, resolve_content_store_hit "Math" "What is 2+2?" "2+2 = 4" [] none (by decide)⟩

/-! ## C8: cache hits, subject-agnostic -/

/-- C8: when the question is absent from the Content Store table of the
subject but present in the cache, `get_answer` returns the cached value,
leaves the cache unchanged and makes no remote call; and every other
subject whose table also misses the question gets the same result —
the cache key ignores the subject. -/
theorem resolve_cache_hit_subject_agnostic (sub question v : String)
    (ai_cache : List (String × String)) (remote : Option String)
    (hmiss : pyGet ((pyGet questions sub).getD []) question = none)
    (hhit : pyGet ai_cache question = some v) :
    get_answer sub question ai_cache remote = ⟨v, ai_cache, false⟩ ∧
    ∀ sub2 : String, pyGet ((pyGet questions sub2).getD []) question = none →
      get_answer sub2 question ai_cache remote =
        get_answer sub question ai_cache remote := by
  have hone : ∀ s : String, pyGet ((pyGet questions s).getD []) question = none →
      get_answer s question ai_cache remote = ⟨v, ai_cache, false⟩ := by
    intro s hs
    simp [get_answer, hs, resolveTail, hhit]
  refine ⟨hone sub hmiss, fun sub2 h2 => ?_⟩
  rw [hone sub2 h2, hone sub hmiss]

/-- Witness for C8: a cached question unknown to the "Math" table. -/
theorem resolve_cache_hit_subject_agnostic_witness :
    pyGet ((pyGet questions "Math").getD []) "What is gravity?" = none ∧
    pyGet [("What is gravity?", "A force.")] "What is gravity?" = some "A force." ∧
    get_answer "Math" "What is gravity?" [("What is gravity?", "A force.")] none =
      ⟨"A force.", [("What is gravity?", "A force.")], false⟩ :=
  ⟨by decide, by decide,
    (resolve_cache_hit_subject_agnostic "Math" "What is gravity?" "A force."
      [("What is gravity?", "A force.")] none (by decide) (by decide)).1⟩

/-! ## C9: remote errors never propagate -/

/-- C9: when resolution reaches the remote call (Content Store miss and
cache miss) and the call raises (`remote = none`), `get_answer` returns
the fixed failure message — it returns normally with the cache
unchanged, so the exception never propagates to the caller. The first
hypothesis also admits a stored empty-string answer, which the
truthiness guard treats as a miss. -/
theorem resolve_remote_error_message (sub question : String)
    (ai_cache : List (String × String))
    (hmiss : pyGet ((pyGet questions sub).getD []) question = none ∨
      pyGet ((pyGet questions sub).getD []) question = some "")
    (hcache : pyGet ai_cache question = none) :
    get_answer sub question ai_cache none = ⟨failMsgError, ai_cache, true⟩ := by
  rcases hmiss with h | h <;> simp [get_answer, h, resolveTail, hcache]

/-- Witness for C9 at a concrete double miss. -/
theorem resolve_remote_error_message_witness :
    pyGet ((pyGet questions "Math").getD []) "What is gravity?" = none ∧
    get_answer "Math" "What is gravity?" [] none =
      ⟨failMsgError, [], true⟩ :=
  ⟨by decide,
    resolve_remote_error_message "Math" "What is gravity?" [] (Or.inl (by decide))
      (by decide)⟩

/-! ## C6: a remote success populates the cache for the next call -/

/-- C6: resolving a question absent from the Content Store and the
cache via a remote success with nonempty stripped text returns that
text and records it; a second `resolve` of the same question (any
remote oracle, even a failing one) answers identically from the cache
with no remote call and no further cache change. -/
theorem resolve_remote_then_cached (sub question raw : String)
    (ai_cache : List (String × String)) (remote2 : Option String)
    (hmiss : pyGet ((pyGet questions sub).getD []) question = none)
    (hcache : pyGet ai_cache question = none)
    (hne : pyStrip raw ≠ "") :
    get_answer sub question ai_cache (some raw) =
      ⟨pyStrip raw, pySet ai_cache question (pyStrip raw), true⟩ ∧
    get_answer sub question (pySet ai_cache question (pyStrip raw)) remote2 =
      ⟨pyStrip raw, pySet ai_cache question (pyStrip raw), false⟩ := by
  constructor
  · simp [get_answer, hmiss, resolveTail, hcache, hne]
  · simp [get_answer, hmiss, resolveTail, pyGet_pySet_self]

/-- Witness for C6: a fresh question resolved remotely, then re-asked. -/
theorem resolve_remote_then_cached_witness :
    pyStrip " Gravity pulls. " ≠ "" ∧
    get_answer "Math" "What is gravity?" [] (some " Gravity pulls. ") =
      ⟨"Gravity pulls.", [("What is gravity?", "Gravity pulls.")], true⟩ ∧
    get_answer "Math" "What is gravity?" [("What is gravity?", "Gravity pulls.")] none =
      ⟨"Gravity pulls.", [("What is gravity?", "Gravity pulls.")], false⟩ := by
  have h := resolve_remote_then_cached "Math" "What is gravity?" " Gravity pulls. "
    [] none (by decide) (by decide) (by decide)
  exact ⟨by decide, by simpa using h.1, by simpa using h.2⟩

/-! ## C3: empty remote text — message right, but the cache mutates -/

/-- Counterexample to C3 as stated: with an empty store and a remote
success whose text strips to empty, `get_answer` does return the fixed
failure message, but the cache is not left unchanged — the empty string
is written under the question key (and hence persisted by the
unconditional `json.dump` on line 83). -/
theorem resolve_empty_text_cache_mutated :
    get_answer "Math" "What is gravity?" [] (some "  ") =
      ⟨failMsgEmpty, [("What is gravity?", "")], true⟩ ∧
    ([("What is gravity?", "")] : List (String × String)) ≠ [] := by
  refine ⟨by decide, by decide⟩

/-- C3 amended: when the remote call succeeds but the stripped text is
empty (store and cache both missing the question), `get_answer` returns
the fixed failure message, yet the cache write still happens: the empty
string is stored under the question in the shared table (line 81 runs
before the emptiness test on line 85). -/
theorem resolve_empty_text_behavior (sub question raw : String)
    (ai_cache : List (String × String))
    (hmiss : pyGet ((pyGet questions sub).getD []) question = none)
    (hcache : pyGet ai_cache question = none)
    (hempty : pyStrip raw = "") :
    get_answer sub question ai_cache (some raw) =
      ⟨failMsgEmpty, pySet ai_cache question "", true⟩ := by
  simp [get_answer, hmiss, resolveTail, hcache, hempty]

/-- Witness for the amended C3 at a whitespace-only remote response. -/
theorem resolve_empty_text_behavior_witness :
    pyStrip "  " = "" ∧
    get_answer "Science" "What is gravity?" [] (some "  ") =
      ⟨failMsgEmpty, [("What is gravity?", "")], true⟩ := by
  have h := resolve_empty_text_behavior "Science" "What is gravity?" "  " []
    (by decide) (by decide) (by decide)
  exact ⟨by decide, by simpa using h⟩

/-! ### Generator lemmas -/

/-- A validated element satisfies the surfaced-quiz invariant. -/
theorem wellFormed_of_valid (q : PyVal) (h : isValidMCQ q = true) :
    isWellFormedMCQ q = true := by
  unfold isValidMCQ at h
  unfold isWellFormedMCQ
  split at h
  · rename_i hq ho ha
    rw [ho, ha]
    exact h
  · exact Bool.noConfusion h

/-- Every fallback entry satisfies the surfaced-quiz invariant. -/
theorem fallback_wellFormed (subject : String) (num_questions : Nat) :
    ∀ q ∈ fallback_mcqs subject num_questions, isWellFormedMCQ q = true := by
  intro q hq
  simp only [fallback_mcqs, List.mem_map] at hq
  obtain ⟨i, -, rfl⟩ := hq
  rfl

/-- The fallback quiz has exactly the requested length. -/
theorem fallback_length (subject : String) (num_questions : Nat) :
    (fallback_mcqs subject num_questions).length = num_questions := by
  simp [fallback_mcqs]

/-- Entries of the validated list produced by the remote pipeline pass
the source validation. -/
theorem parsedValidated_valid (remote : Option String)
    (jsonLoads : String → Option (List PyVal)) (l : List PyVal)
    (hp : parsedValidated remote jsonLoads = some l) :
    ∀ x ∈ l, isValidMCQ x = true := by
  cases remote with
  | none => simp [parsedValidated] at hp
  | some raw =>
    simp only [parsedValidated] at hp
    cases hx : extractJsonSlice (pyStrip raw) with
    | none =>
      rw [hx] at hp
      simp at hp
    | some slice =>
      rw [hx] at hp
      have hp1 : (match jsonLoads slice with
          | none => none
          | some mcqs => some (mcqs.filter isValidMCQ)) = some l := hp
      cases hj : jsonLoads slice with
      | none =>
        rw [hj] at hp1
        simp at hp1
      | some mcqs =>
        rw [hj] at hp1
        have hp2 : some (mcqs.filter isValidMCQ) = some l := hp1
        cases Option.some.inj hp2
        intro x hx2
        exact List.of_mem_filter hx2

/-- Every entry of every quiz `generate_ai_mcqs` returns satisfies the
surfaced-quiz invariant. -/
theorem mem_generate_wellFormed (subject : String) (num_questions : Nat)
    (remote : Option String) (jsonLoads : String → Option (List PyVal)) :
    ∀ q ∈ generate_ai_mcqs subject num_questions remote jsonLoads,
      isWellFormedMCQ q = true := by
  intro q hq
  simp only [generate_ai_mcqs] at hq
  cases hp : parsedValidated remote jsonLoads with
  | none =>
    rw [hp] at hq
    exact fallback_wellFormed subject num_questions q hq
  | some l =>
    rw [hp] at hq
    have hq2 : q ∈ (if l.isEmpty then fallback_mcqs subject num_questions else l) := hq
    by_cases hl : l.isEmpty
    · rw [if_pos hl] at hq2
      exact fallback_wellFormed subject num_questions q hq2
    · rw [if_neg hl] at hq2
      exact wellFormed_of_valid q
        (parsedValidated_valid remote jsonLoads l hp q hq2)

/-! ### C2: the surfaced-quiz invariant -/

/-- C2: every quiz `generate_ai_mcqs` returns — validated remote path or
fallback path — contains only entries with exactly 4 options and an
answer equal to one of them; no quiz violating the invariant is ever
surfaced. -/
theorem generate_entries_wellFormed (subject : String) (num_questions : Nat)
    (remote : Option String) (jsonLoads : String → Option (List PyVal)) :
    ∀ q ∈ generate_ai_mcqs subject num_questions remote jsonLoads,
      isWellFormedMCQ q = true :=
  mem_generate_wellFormed subject num_questions remote jsonLoads

/-- Witness for C2 at the fallback quiz for "Math". -/
theorem generate_entries_wellFormed_witness :
    PyVal.dict
        [("question", PyVal.str "Sample Math question 1?"),
         ("options",
          PyVal.list [PyVal.str "Option A", PyVal.str "Option B",
                      PyVal.str "Option C", PyVal.str "Option D"]),
         ("answer", PyVal.str "Option A")] ∈
      generate_ai_mcqs "Math" 5 none (fun _ => none) ∧
    isWellFormedMCQ
      (PyVal.dict
        [("question", PyVal.str "Sample Math question 1?"),
         ("options",
          PyVal.list [PyVal.str "Option A", PyVal.str "Option B",
                      PyVal.str "Option C", PyVal.str "Option D"]),
         ("answer", PyVal.str "Option A")]) = true := by
  have hm : PyVal.dict
        [("question", PyVal.str "Sample Math question 1?"),
         ("options",
          PyVal.list [PyVal.str "Option A", PyVal.str "Option B",
                      PyVal.str "Option C", PyVal.str "Option D"]),
         ("answer", PyVal.str "Option A")] ∈
      generate_ai_mcqs "Math" 5 none (fun _ => none) := by
    show _ ∈ fallback_mcqs "Math" 5
    exact List.mem_map.mpr ⟨0, by simp, rfl⟩
  exact ⟨hm, generate_entries_wellFormed "Math" 5 none (fun _ => none) _ hm⟩

/-! ### C1: length behaviour of `generate(subject, 5)` -/
/-- Counterexample to C1 as stated: on a remote success whose array
parses to a single validated question, `generate_ai_mcqs(subject, 5)`
returns that one entry — length 1, not 5. -/
theorem generate_success_length_ne_five :
    generate_ai_mcqs "Math" 5 (some demoRaw) demoJsonLoads = [demoMCQ] ∧
    (generate_ai_mcqs "Math" 5 (some demoRaw) demoJsonLoads).length ≠ 5 := by
  have h1 : generate_ai_mcqs "Math" 5 (some demoRaw) demoJsonLoads = [demoMCQ] := by
    rfl
  refine ⟨h1, ?_⟩
  rw [h1]
  decide

/-- C1 amended: `generate(subject, 5)` always returns entries with
exactly 4 options and an answer among them; it returns exactly 5
entries on the remote-failure, unparseable-output and zero-validated
fallback paths; on a remote success with a nonempty validated list it
returns precisely those validated entries, however many there are. -/
theorem generate_amended_shape (subject : String) (remote : Option String)
    (jsonLoads : String → Option (List PyVal)) :
    (∀ q ∈ generate_ai_mcqs subject 5 remote jsonLoads,
      isWellFormedMCQ q = true) ∧
    ((parsedValidated remote jsonLoads).getD [] = [] →
      generate_ai_mcqs subject 5 remote jsonLoads = fallback_mcqs subject 5 ∧
      (generate_ai_mcqs subject 5 remote jsonLoads).length = 5) ∧
    (∀ l, parsedValidated remote jsonLoads = some l → l ≠ [] →
      generate_ai_mcqs subject 5 remote jsonLoads = l) := by
  refine ⟨mem_generate_wellFormed subject 5 remote jsonLoads, ?_, ?_⟩
  · intro hempty
    have hfb : generate_ai_mcqs subject 5 remote jsonLoads = fallback_mcqs subject 5 := by
      simp only [generate_ai_mcqs]
      cases hp : parsedValidated remote jsonLoads with
      | none => rfl
      | some l =>
        rw [hp] at hempty
        simp only [Option.getD_some] at hempty
        simp [hempty]
    exact ⟨hfb, by rw [hfb]; exact fallback_length subject 5⟩
  · intro l hp hl
    simp only [generate_ai_mcqs, hp]
    simp [List.isEmpty_iff, hl]

/-- Witness for the amended C1 on the remote-failure path. -/
theorem generate_amended_shape_witness :
    (parsedValidated none (fun _ => none)).getD [] = [] ∧
    (generate_ai_mcqs "Math" 5 none (fun _ => none)).length = 5 :=
  ⟨rfl, ((generate_amended_shape "Math" none (fun _ => none)).2.1 rfl).2⟩

/-- On quizzes whose entries carry string answers, the code loop counts
exactly the specified string matches, from any start index. -/
theorem scoreLoop_eq_answerMatchCount (submission : Nat → Option String)
    (quiz : List PyVal)
    (h : ∀ q ∈ quiz, ∃ s, q.getKey "answer" = some (PyVal.str s)) :
    ∀ n, scoreLoop submission n quiz = answerMatchCount submission n quiz := by
  induction quiz with
  | nil => intro n; rfl
  | cons q rest ih =>
    intro n
    obtain ⟨s, hs⟩ := h q (List.mem_cons_self q rest)
    have hrest : ∀ x ∈ rest, ∃ t, x.getKey "answer" = some (PyVal.str t) :=
      fun x hx => h x (List.mem_cons_of_mem q hx)
    simp only [scoreLoop, answerMatchCount, hs, ih hrest]
    cases hsub : submission n with
    | none => simp [pyEqSelAns]
    | some t => simp [pyEqSelAns, beq_iff_eq]

/-- With no submitted answers, the specified match count is zero. -/
theorem answerMatchCount_empty (submission : Nat → Option String)
    (hnone : ∀ i, submission i = none) :
    ∀ (n : Nat) (quiz : List PyVal), answerMatchCount submission n quiz = 0 := by
  intro n quiz
  induction quiz generalizing n with
  | nil => rfl
  | cons q rest ih => simp [answerMatchCount, hnone, ih]

/-- C5: on every quiz whose entries each carry a string `answer` (the
QuizQuestion shape) and every submission, the rendered score is the
number of indices whose submitted option string equals the answer
string under exact string equality — an absent submission never
matches — and the total is the quiz length; with an empty submission
the score is `(0, len(quiz))`. -/
theorem score_exact_string_equality (quiz : List PyVal)
    (submission : Nat → Option String)
    (h : ∀ q ∈ quiz, ∃ s, q.getKey "answer" = some (PyVal.str s)) :
    ai_quiz_score quiz submission = (answerMatchCount submission 0 quiz, quiz.length) ∧
    ((∀ i, submission i = none) → ai_quiz_score quiz submission = (0, quiz.length)) := by
  have hmain : ai_quiz_score quiz submission =
      (answerMatchCount submission 0 quiz, quiz.length) := by
    unfold ai_quiz_score
    rw [scoreLoop_eq_answerMatchCount submission quiz h 0]
  refine ⟨hmain, fun hnone => ?_⟩
  rw [hmain, answerMatchCount_empty submission hnone 0 quiz]

/-- Witness for C5 on a one-question quiz with the right selection. -/
theorem score_exact_string_equality_witness :
    (∀ q ∈ [PyVal.dict
        [("question", PyVal.str "Q"),
         ("options", PyVal.list [PyVal.str "A", PyVal.str "B",
                                 PyVal.str "C", PyVal.str "D"]),
         ("answer", PyVal.str "B")]],
      ∃ s, q.getKey "answer" = some (PyVal.str s)) ∧
    ai_quiz_score
      [PyVal.dict
        [("question", PyVal.str "Q"),
         ("options", PyVal.list [PyVal.str "A", PyVal.str "B",
                                 PyVal.str "C", PyVal.str "D"]),
         ("answer", PyVal.str "B")]]
      (fun i => if i = 0 then some "B" else none) =
      (answerMatchCount (fun i => if i = 0 then some "B" else none) 0
        [PyVal.dict
          [("question", PyVal.str "Q"),
           ("options", PyVal.list [PyVal.str "A", PyVal.str "B",
                                   PyVal.str "C", PyVal.str "D"]),
           ("answer", PyVal.str "B")]], 1) := by
  have h : ∀ q ∈ [PyVal.dict
      [("question", PyVal.str "Q"),
       ("options", PyVal.list [PyVal.str "A", PyVal.str "B",
                               PyVal.str "C", PyVal.str "D"]),
       ("answer", PyVal.str "B")]],
      ∃ s, q.getKey "answer" = some (PyVal.str s) := by
    intro q hq
    rw [List.mem_singleton] at hq
    subst hq
    exact ⟨"B", rfl⟩
  exact ⟨h, (score_exact_string_equality _ _ h).1⟩

/-- C10: a client-supplied quiz blob whose element lacks an `answer`
field scores as correct against an empty submission — `None == None` —
so the rendered score is `(1, 1)` although nothing was submitted. -/
theorem score_missing_answer_field_counts :
    ai_quiz_score
      [PyVal.dict
        [("question", PyVal.str "Q"),
         ("options", PyVal.list [PyVal.str "A", PyVal.str "B",
                                 PyVal.str "C", PyVal.str "D"])]]
      (fun _ => none) = (1, 1) := rfl

/-- Counterexample to C4 as stated: when the cache file exists with
malformed content, startup raises — initialization does not complete. -/
theorem startup_malformed_cache_errors :
    startup true none = Except.error () := rfl

/-- C4 amended: startup completes exactly when the cache file is absent
or its content parses; an existing malformed file makes the uncaught
`json.load` exception abort initialization (though the static tables
were already constructed on the lines above the load). -/
theorem startup_ok_iff (fileExists : Bool)
    (parsed : Option (List (String × String))) :
    (∃ r, startup fileExists parsed = Except.ok r) ↔
      (fileExists = false ∨ parsed.isSome = true) := by
  cases fileExists <;> cases parsed <;> simp [startup]
